import Mathlib

/-!
Verification of the node binding client of sgl-router
(src/sgl-router/bindings/node/client.js).

The file embeds the client facade and its streaming bridge shallowly:

* JSON values and the JSON.parse / JSON.stringify pair are modelled by the
  inductive type Json together with parseJson and printJson.  Numbers are
  modelled as integers (no claim depends on fractional numbers) and string
  unicode escapes are restricted to the simple single-character escapes.
* The transport (the in-scope NAPI connection handle) is modelled by the
  list of callback invocations it performs for one stream: each invocation
  carries either an error value or a chunk payload (a string, or null).
* The public method chatCompletionStream registers one callback with the
  transport and forwards each invocation synchronously; it is therefore
  embedded as the pointwise map of the per-invocation handler
  chatCompletionStreamCallback over the transport invocation list.
* The public method chatCompletion is embedded as a function from the
  unary transport call (a function from request bytes to a fallible byte
  result) and the request to the pair of its outcome and the list of
  transport calls it issues.  The streaming branch of the source returns
  an object whose async iterator body throws an unimplemented-feature
  error before doing anything observable; the locals it declares (queue,
  resolveQueue, done, error, callback) are dead code preceding the throw,
  so the branch is embedded as a handle whose first iteration step is that
  error and whose transport-call trace is empty.
-/

namespace Sglang

/-- JSON values, the shape of what JSON.parse returns and JSON.stringify
consumes.  Numbers are restricted to integers. -/
inductive Json where
  | null
  | bool (b : Bool)
  | num (n : Int)
  | str (s : String)
  | arr (elems : List Json)
  | obj (fields : List (String × Json))

/-- JSON insignificant whitespace. -/
def jsonWs (c : Char) : Bool :=
  c = ' ' || c = '\n' || c = '\t' || c = '\r'

/-- Drop leading JSON whitespace. -/
def skipWs (cs : List Char) : List Char :=
  cs.dropWhile jsonWs

/-- Meaning of a backslash escape inside a JSON string literal. -/
def unescapeChar (c : Char) : Char :=
  if c = 'n' then '\n'
  else if c = 't' then '\t'
  else if c = 'r' then '\r'
  else if c = 'b' then '\x08'
  else if c = 'f' then '\x0c'
  else c

/-- Parse the body of a JSON string literal, after the opening quote:
returns the decoded characters and the input remaining after the closing
quote. -/
def parseStringBody : List Char → Option (List Char × List Char)
  | [] => none
  | '"' :: rest => some ([], rest)
  | '\\' :: [] => none
  | '\\' :: c :: rest =>
    match parseStringBody rest with
    | some (s, r) => some (unescapeChar c :: s, r)
    | none => none
  | c :: rest =>
    match parseStringBody rest with
    | some (s, r) => some (c :: s, r)
    | none => none

/-- Value of a list of decimal digit characters. -/
def digitsToNat (ds : List Char) : Nat :=
  ds.foldl (fun acc c => acc * 10 + (c.toNat - 48)) 0

/-- Parse a JSON number (integer part only, see the header note). -/
def parseNumber (cs : List Char) : Option (Int × List Char) :=
  match cs with
  | '-' :: rest =>
    let ds := rest.takeWhile Char.isDigit
    if ds.isEmpty then none
    else some (-(digitsToNat ds : Int), rest.dropWhile Char.isDigit)
  | _ =>
    let ds := cs.takeWhile Char.isDigit
    if ds.isEmpty then none
    else some ((digitsToNat ds : Int), cs.dropWhile Char.isDigit)

/-- Match an expected literal character sequence. -/
def stripChars : List Char → List Char → Option (List Char)
  | [], cs => some cs
  | _ :: _, [] => none
  | p :: ps, c :: cs => if c = p then stripChars ps cs else none

mutual

/-- Recursive-descent JSON value parser (fuel-indexed). -/
def parseValue : Nat → List Char → Option (Json × List Char)
  | 0, _ => none
  | fuel + 1, cs =>
    match skipWs cs with
    | [] => none
    | c :: rest =>
      if c = '"' then
        match parseStringBody rest with
        | some (s, r) => some (.str (String.mk s), r)
        | none => none
      else if c = '\x7b' then
        match parseObjFields fuel rest true with
        | some (fs, r) => some (.obj fs, r)
        | none => none
      else if c = '[' then
        match parseArrayElems fuel rest true with
        | some (es, r) => some (.arr es, r)
        | none => none
      else if c = 'n' then
        match stripChars ['u', 'l', 'l'] rest with
        | some r => some (.null, r)
        | none => none
      else if c = 't' then
        match stripChars ['r', 'u', 'e'] rest with
        | some r => some (.bool true, r)
        | none => none
      else if c = 'f' then
        match stripChars ['a', 'l', 's', 'e'] rest with
        | some r => some (.bool false, r)
        | none => none
      else
        match parseNumber (c :: rest) with
        | some (n, r) => some (.num n, r)
        | none => none

/-- Parse array elements after the opening bracket; the flag says whether
no element has been consumed yet (so a closing bracket is allowed). -/
def parseArrayElems : Nat → List Char → Bool → Option (List Json × List Char)
  | 0, _, _ => none
  | fuel + 1, cs, first =>
    match skipWs cs with
    | ']' :: rest => if first then some ([], rest) else none
    | cs2 =>
      match parseValue fuel cs2 with
      | none => none
      | some (j, r) =>
        match skipWs r with
        | ',' :: r2 =>
          match parseArrayElems fuel r2 false with
          | some (js, r3) => some (j :: js, r3)
          | none => none
        | ']' :: r2 => some ([j], r2)
        | _ => none

/-- Parse object members after the opening brace; the flag says whether
no member has been consumed yet (so a closing brace is allowed). -/
def parseObjFields : Nat → List Char → Bool → Option (List (String × Json) × List Char)
  | 0, _, _ => none
  | fuel + 1, cs, first =>
    match skipWs cs with
    | '\x7d' :: rest => if first then some ([], rest) else none
    | '"' :: rest =>
      match parseStringBody rest with
      | none => none
      | some (k, r) =>
        match skipWs r with
        | ':' :: r2 =>
          match parseValue fuel r2 with
          | none => none
          | some (v, r3) =>
            match skipWs r3 with
            | ',' :: r4 =>
              match parseObjFields fuel r4 false with
              | some (fs, r5) => some ((String.mk k, v) :: fs, r5)
              | none => none
            | '\x7d' :: r4 => some ([(String.mk k, v)], r4)
            | _ => none
        | _ => none
    | _ => none

end

/-- Model of JSON.parse: parse a complete JSON text (only whitespace may
follow the value).  Returns none where JSON.parse throws a SyntaxError. -/
def parseJson (s : String) : Option Json :=
  match parseValue (s.length * 2 + 2) s.data with
  | some (j, rest) => if skipWs rest = [] then some j else none
  | none => none

/-- Escaping of one character inside a printed JSON string literal. -/
def escapeChar (c : Char) : List Char :=
  if c = '"' then ['\\', '"']
  else if c = '\\' then ['\\', '\\']
  else if c = '\n' then ['\\', 'n']
  else if c = '\t' then ['\\', 't']
  else if c = '\r' then ['\\', 'r']
  else [c]

/-- Print a JSON string literal. -/
def printString (s : String) : String :=
  String.mk ('"' :: (s.data.map escapeChar).flatten ++ ['"'])

mutual

/-- Model of JSON.stringify on Json values. -/
def printJson : Json → String
  | .null => "null"
  | .bool true => "true"
  | .bool false => "false"
  | .num n => toString n
  | .str s => printString s
  | .arr es => "[" ++ printElems es ++ "]"
  | .obj fs => "\x7b" ++ printFields fs ++ "\x7d"

/-- Comma-separated printing of array elements. -/
def printElems : List Json → String
  | [] => ""
  | [j] => printJson j
  | j :: rest => printJson j ++ "," ++ printElems rest

/-- Comma-separated printing of object members. -/
def printFields : List (String × Json) → String
  | [] => ""
  | [(k, v)] => printString k ++ ":" ++ printJson v
  | (k, v) :: rest => printString k ++ ":" ++ printJson v ++ "," ++ printFields rest

end

/-- One chat message of a request (role and content). -/
structure ChatMessage where
  role : String
  content : String

/-- A chat completion request record, as built by callers of the client.
The optional temperature field of the source interface is omitted from the
embedding (floating point); no claim depends on it. -/
structure ChatCompletionRequest where
  model : String
  messages : List ChatMessage
  max_tokens : Option Nat := none
  stream : Bool := false

/-- JSON form of one message, as JSON.stringify lays it out. -/
def messageToJson (m : ChatMessage) : Json :=
  Json.obj [("role", Json.str m.role), ("content", Json.str m.content)]

/-- JSON form of a request, as JSON.stringify lays it out (absent optional
fields are omitted, mirroring undefined-field omission). -/
def requestToJson (r : ChatCompletionRequest) : Json :=
  Json.obj
    ([("model", Json.str r.model),
      ("messages", Json.arr (r.messages.map messageToJson))]
      ++ (match r.max_tokens with
          | some n => [("max_tokens", Json.num n)]
          | none => [])
      ++ [("stream", Json.bool r.stream)])

/-- Model of the jsonStr computation of the source: JSON.stringify of the
request.  Total by construction: it never fails on any request record. -/
def serializeRequest (r : ChatCompletionRequest) : String :=
  printJson (requestToJson r)

/-- One invocation of the callback registered with the transport by
inner.chatCompletionStream: either an error value, or a chunk payload
that is a string or null. -/
inductive TransportEvent where
  | err (e : String)
  | chunk (payload : Option String)

/-- The error value handed to onError by the bridge: either the transport
error forwarded as-is, or the JSON.parse SyntaxError for the offending
payload. -/
inductive StreamError where
  | transport (e : String)
  | parse (payload : String)

/-- One consumer-facing delivery of chatCompletionStream, as the consumer
can observe it: fragment is onChunk with a non-null parsed value,
endOfStream is onChunk(null) — whether produced by the sentinel branch or
by a payload whose JSON parse is null, the two invocations are
byte-identical for the consumer — and error is onError. -/
inductive ConsumerEvent where
  | fragment (j : Json)
  | endOfStream
  | error (e : StreamError)

/-- The per-invocation handler chatCompletionStream registers with
inner.chatCompletionStream: errors go to onError as-is; a null payload or
the exact string "null" is treated as the end-of-stream sentinel and
delivered as onChunk(null) without parsing; any other payload is
JSON.parsed and the parse is handed to onChunk unconditionally on
success, or routed to onError on a parse failure.  A payload that escapes
the sentinel string check but parses to JSON null, such as the string
"null" with a leading space, therefore reaches the consumer as
onChunk(null), indistinguishable from the end-of-stream delivery, and is
embedded as endOfStream. -/
def chatCompletionStreamCallback : TransportEvent → ConsumerEvent
  | TransportEvent.err e => ConsumerEvent.error (StreamError.transport e)
  | TransportEvent.chunk none => ConsumerEvent.endOfStream
  | TransportEvent.chunk (some s) =>
    if s = "null" then ConsumerEvent.endOfStream
    else
      match parseJson s with
      | some Json.null => ConsumerEvent.endOfStream
      | some j => ConsumerEvent.fragment j
      | none => ConsumerEvent.error (StreamError.parse s)

/-- The public chatCompletionStream method, observed over one stream: the
transport invokes the registered callback once per event, in order, and
each invocation is forwarded synchronously to the consumer before the
next is processed, so the consumer deliveries are the pointwise image of
the transport invocation list.  The method keeps no state between
invocations. -/
def chatCompletionStream (evs : List TransportEvent) : List ConsumerEvent :=
  evs.map chatCompletionStreamCallback

/-- Consumer events that are terminal signals: end of stream or error. -/
def isTerminalEvent : ConsumerEvent → Bool
  | ConsumerEvent.fragment _ => false
  | ConsumerEvent.endOfStream => true
  | ConsumerEvent.error _ => true

/-- Transport invocations that the bridge turns into a terminal signal:
an error, a null payload, the exact sentinel string, an unparseable
payload, or a payload whose JSON parse is null (delivered as
onChunk(null), identical to the end-of-stream delivery). -/
def isTerminalInvocation : TransportEvent → Bool
  | TransportEvent.err _ => true
  | TransportEvent.chunk none => true
  | TransportEvent.chunk (some s) =>
    s = "null" ||
      match parseJson s with
      | none => true
      | some Json.null => true
      | some _ => false

/-- The fragment carried by a consumer delivery, when it is one. -/
def fragmentPart : ConsumerEvent → Option Json
  | ConsumerEvent.fragment j => some j
  | _ => none

/-- The fragment a transport invocation carries: the parse of its
payload when the invocation is a non-error, non-sentinel, parseable
chunk whose parse is not JSON null (a parse of null reaches the consumer
as onChunk(null), the end-of-stream delivery, never as a fragment). -/
def transportFragmentPart : TransportEvent → Option Json
  | TransportEvent.chunk (some s) =>
    if s = "null" then none
    else
      match parseJson s with
      | some Json.null => none
      | some j => some j
      | none => none
  | _ => none

/-- The fragments among a list of consumer deliveries, in order. -/
def fragmentsOf (out : List ConsumerEvent) : List Json :=
  out.filterMap fragmentPart

/-- The fragments the transport delivered, in invocation order: the
parses of the non-error, non-sentinel, parseable payloads. -/
def transportFragments (evs : List TransportEvent) : List Json :=
  evs.filterMap transportFragmentPart

/-- Errors a chatCompletion caller can observe, following the taxonomy of
the specification: TransportError when the awaited unary call rejects
(the rejection value is forwarded), MalformedResponse when JSON.parse of
the response throws. -/
inductive ClientError where
  | transport (e : String)
  | malformed

/-- The deserialization step of the unary path: JSON.parse of the
response bytes, with a parse failure surfacing as MalformedResponse.
No shape checking is performed beyond JSON syntax. -/
def deserialize (s : String) : Except ClientError Json :=
  match parseJson s with
  | some j => Except.ok j
  | none => Except.error ClientError.malformed

/-- The message of the error thrown by the async iterator body of the
streaming branch of chatCompletion. -/
def streamingUnimplementedMsg : String :=
  "Streaming interface requires update to native binding to signal completion."

/-- A call issued to the inner native client. -/
inductive InnerCall where
  | unaryCall (payload : String)
  | streamCall (payload : String)

/-- Outcome of an awaited chatCompletion: the parsed unary response, or
the stream handle of the streaming branch.  The handle records the result
of the first async iteration step and the inner calls that iterating
performs. -/
inductive ChatCompletionResult where
  | unaryResponse (j : Json)
  | streamHandle (firstNext : Except String Json) (iterCalls : List InnerCall)

/-- The public chatCompletion method.  The unary transport call is passed
in as a function from request bytes to a fallible response string.  The
returned pair is the settled outcome of the promise together with the
inner calls the method itself issues.  For stream=true the source builds
and returns an object exposing Symbol.asyncIterator whose generator body
throws the unimplemented-feature error before reaching any inner call
(its queue and callback locals are dead code preceding the throw), so the
handle has that error as its first iteration step and an empty call
trace, and the method issues no inner call.  For stream=false the source
awaits inner.chatCompletion on the serialized request and JSON.parses the
response. -/
def chatCompletion (unary : String → Except String String)
    (req : ChatCompletionRequest) :
    Except ClientError ChatCompletionResult × List InnerCall :=
  if req.stream then
    (Except.ok
      (ChatCompletionResult.streamHandle
        (Except.error streamingUnimplementedMsg) []), [])
  else
    match unary (serializeRequest req) with
    | Except.error e =>
      (Except.error (ClientError.transport e),
        [InnerCall.unaryCall (serializeRequest req)])
    | Except.ok s =>
      match parseJson s with
      | some j =>
        (Except.ok (ChatCompletionResult.unaryResponse j),
          [InnerCall.unaryCall (serializeRequest req)])
      | none =>
        (Except.error ClientError.malformed,
          [InnerCall.unaryCall (serializeRequest req)])

/-- The inner native client surface used by the tokenizer pass-throughs.
Tokenizer failures are modelled by the Except error case. -/
structure NativeClient where
  tokenizerEncode : String → Except String (List Nat)
  tokenizerDecode : List Nat → Except String String

/-- The public encode method: a direct pass-through to
inner.tokenizerEncode. -/
def encode (c : NativeClient) (text : String) : Except String (List Nat) :=
  c.tokenizerEncode text

/-- The public decode method: a direct pass-through to
inner.tokenizerDecode. -/
def decode (c : NativeClient) (ids : List Nat) : Except String String :=
  c.tokenizerDecode ids

/-- Modelled from the spec: the expected shape of a UnaryResponse per the
data model of the specification (required fields id, model, created,
non-empty choices, usage), used only to compare the deserialization the
code performs against the shape checking the specification asks for.
The code under src never defines or checks this shape. -/
def isUnaryResponseShape (j : Json) : Bool :=
  match j with
  | Json.obj fs =>
    (match (fs.find? fun p => p.1 = "id") with
      | some (_, Json.str _) => true
      | _ => false) &&
    (match (fs.find? fun p => p.1 = "model") with
      | some (_, Json.str _) => true
      | _ => false) &&
    (match (fs.find? fun p => p.1 = "created") with
      | some (_, Json.num _) => true
      | _ => false) &&
    (match (fs.find? fun p => p.1 = "choices") with
      | some (_, Json.arr (_ :: _)) => true
      | _ => false) &&
    (match (fs.find? fun p => p.1 = "usage") with
      | some (_, Json.obj _) => true
      | _ => false)
  | _ => false

/-- The bridge turns a transport invocation into a terminal delivery
exactly when the invocation is an error, a null or sentinel payload, or
an unparseable payload. -/
theorem isTerminalEvent_callback (ev : TransportEvent) :
    isTerminalEvent (chatCompletionStreamCallback ev) = isTerminalInvocation ev := by
  cases ev with
  | err e => rfl
  | chunk p =>
    cases p with
    | none => rfl
    | some s =>
      by_cases hs : s = "null"
      · simp [chatCompletionStreamCallback, isTerminalInvocation, hs, isTerminalEvent]
      · simp only [chatCompletionStreamCallback, isTerminalInvocation, if_neg hs]
        cases hp : parseJson s with
        | some j => cases j <;> simp [isTerminalEvent, hs, hp]
        | none => simp [isTerminalEvent, hs, hp]

/-- The fragment extracted from a consumer delivery is the parse of the
corresponding non-sentinel payload. -/
theorem fragment_callback (ev : TransportEvent) :
    fragmentPart (chatCompletionStreamCallback ev) = transportFragmentPart ev := by
  cases ev with
  | err e => rfl
  | chunk p =>
    cases p with
    | none => rfl
    | some s =>
      by_cases hs : s = "null"
      · simp [chatCompletionStreamCallback, fragmentPart, transportFragmentPart, hs]
      · simp only [chatCompletionStreamCallback, transportFragmentPart, if_neg hs]
        cases hp : parseJson s with
        | some j => cases j <;> simp [fragmentPart, hp]
        | none => simp [fragmentPart, hp]

/-- Claim C2 (corrected), counterexample: a transport that invokes the
callback with the end-of-stream sentinel twice makes the consumer observe
two terminal events, contradicting the claim that exactly one terminal
event is observed for every sequence of transport invocations. -/
theorem chatCompletionStream_two_terminals_cex :
    (chatCompletionStream
      [TransportEvent.chunk (some "null"),
       TransportEvent.chunk (some "null")]).countP isTerminalEvent = 2 := rfl

/-- Claim C2 (amended): chatCompletionStream keeps no per-stream state,
so the consumer observes one terminal event per terminal-producing
transport invocation — an error, a null payload, the exact sentinel
string, an unparseable payload, or a payload whose JSON parse is null
(handed to onChunk as null, identical to the end-of-stream delivery);
exactly one terminal event is observed precisely when the transport makes
exactly one such invocation, and a transport that makes zero or two such
invocations produces zero or two terminal events. -/
theorem chatCompletionStream_terminal_count (evs : List TransportEvent) :
    (chatCompletionStream evs).countP isTerminalEvent
      = evs.countP isTerminalInvocation := by
  induction evs with
  | nil => rfl
  | cons ev rest ih =>
    simp only [chatCompletionStream, List.map_cons, List.countP_cons] at *
    rw [ih, isTerminalEvent_callback]

/-- Claim C3 (confirmed): the fragments chatCompletionStream delivers to
onChunk are exactly the parses of the non-error, non-sentinel transport
payloads, in the exact order of the transport invocations, with nothing
reordered, coalesced, or dropped; delivery is pointwise and synchronous
(the delivery at position i is the image of the invocation at position
i), so by the time any event, in particular a terminal one, is delivered,
every fragment received earlier has already been delivered: at every
point k, the fragments delivered so far are exactly the fragments the
transport had delivered so far. -/
theorem chatCompletionStream_preserves_order (evs : List TransportEvent) :
    fragmentsOf (chatCompletionStream evs) = transportFragments evs
    ∧ (∀ k, fragmentsOf ((chatCompletionStream evs).take k)
        = transportFragments (evs.take k))
    ∧ (∀ i : Nat, (chatCompletionStream evs)[i]?
        = (evs[i]?).map chatCompletionStreamCallback) := by
  have main : ∀ l : List TransportEvent,
      fragmentsOf (chatCompletionStream l) = transportFragments l := by
    intro l
    induction l with
    | nil => rfl
    | cons ev rest ih =>
      simp only [chatCompletionStream, List.map_cons, fragmentsOf,
        transportFragments, List.filterMap_cons] at *
      rw [fragment_callback ev, ih]
  refine ⟨main evs, fun k => ?_, fun i => ?_⟩
  · rw [chatCompletionStream, ← List.map_take, ← chatCompletionStream, main]
  · rw [chatCompletionStream, List.getElem?_map]

/-- Claim C4 (confirmed): a non-error transport invocation whose payload
is null or the exact string "null" is treated as the authoritative
end-of-stream sentinel: the bridge delivers onChunk(null) and returns
without attempting to parse the payload as a fragment.  The embedding of
the handler has no clock and registers no timer, matching the source, so
end-of-stream detection depends on nothing but the payload value. -/
theorem chatCompletionStream_sentinel (p : Option String)
    (h : p = none ∨ p = some "null") :
    chatCompletionStreamCallback (TransportEvent.chunk p)
      = ConsumerEvent.endOfStream := by
  rcases h with h | h <;> subst h <;> simp [chatCompletionStreamCallback]

/-- Witness for C4 at the sentinel string payload. -/
theorem chatCompletionStream_sentinel_witness :
    chatCompletionStreamCallback (TransportEvent.chunk (some "null"))
      = ConsumerEvent.endOfStream :=
  chatCompletionStream_sentinel (some "null") (Or.inr rfl)

/-- Claim C5 (corrected), counterexample: after the end-of-stream
sentinel has been delivered (a terminal event), a late transport error
invocation is forwarded to the consumer rather than ignored: the consumer
observes a second, post-terminal delivery. -/
theorem chatCompletionStream_late_callback_cex :
    chatCompletionStream
      [TransportEvent.chunk (some "null"), TransportEvent.err "late"]
      = [ConsumerEvent.endOfStream,
         ConsumerEvent.error (StreamError.transport "late")] := by
  simp [chatCompletionStream, chatCompletionStreamCallback]

/-- Claim C5 (amended): the bridge keeps no terminal state at all; every
transport invocation, including any that arrives after an end-of-stream
or error delivery, is forwarded to the consumer exactly as it would have
been on a fresh stream.  Late callbacks after a terminal event are
re-delivered, not ignored; non-delivery after a terminal holds only when
the transport itself stops invoking the callback. -/
theorem chatCompletionStream_forwards_late_callbacks
    (evs : List TransportEvent) (ev : TransportEvent) :
    chatCompletionStream (evs ++ [ev])
      = chatCompletionStream evs ++ [chatCompletionStreamCallback ev] := by
  simp [chatCompletionStream]

/-- Claim C10 (confirmed): the end-of-stream sentinel is in-band.  A
non-error transport invocation whose payload is the exact string "null"
is delivered as onChunk(null), the same delivery a null payload produces,
so a fragment whose serialized form is the four-character JSON text
"null" is never delivered as a fragment and is indistinguishable from
stream completion for the consumer. -/
theorem chatCompletionStream_inband_sentinel (evs : List TransportEvent)
    (i : Nat) (h : evs[i]? = some (TransportEvent.chunk (some "null"))) :
    (chatCompletionStream evs)[i]? = some ConsumerEvent.endOfStream
    ∧ chatCompletionStreamCallback (TransportEvent.chunk (some "null"))
        = chatCompletionStreamCallback (TransportEvent.chunk none) := by
  constructor
  · rw [chatCompletionStream, List.getElem?_map, h]
    simp [chatCompletionStreamCallback]
  · simp [chatCompletionStreamCallback]

/-- Witness for C10 on a one-invocation stream. -/
theorem chatCompletionStream_inband_sentinel_witness :
    (chatCompletionStream [TransportEvent.chunk (some "null")])[0]?
      = some ConsumerEvent.endOfStream :=
  (chatCompletionStream_inband_sentinel
    [TransportEvent.chunk (some "null")] 0 rfl).1

/-- Claim C1 (corrected), counterexample: on a concrete streaming
request, chatCompletion resolves to a handle whose first async iteration
step is the unimplemented-feature error, with no fragment ever yielded,
contradicting the claim that consuming the handle does not raise an
unimplemented-feature error. -/
theorem chatCompletion_stream_consumption_raises_cex :
    (chatCompletion (fun _ => Except.error "unused")
      { model := "m",
        messages := [{ role := "user", content := "Hi" }],
        stream := true }).1
      = Except.ok
          (ChatCompletionResult.streamHandle
            (Except.error streamingUnimplementedMsg) []) := rfl

/-- Claim C1 (amended): for every request with stream set to true,
chatCompletion does return a handle exposing async iteration rather than
a single value, but consuming that handle raises the unimplemented-
feature error on the first iteration step and never yields a fragment;
the working streaming path is only the separate explicit-callback entry
point chatCompletionStream. -/
theorem chatCompletion_stream_handle_unconsumable
    (unary : String → Except String String) (req : ChatCompletionRequest)
    (h : req.stream = true) :
    (chatCompletion unary req).1
      = Except.ok
          (ChatCompletionResult.streamHandle
            (Except.error streamingUnimplementedMsg) []) := by
  simp [chatCompletion, h]

/-- Witness for the amended C1 on a concrete streaming request. -/
theorem chatCompletion_stream_handle_unconsumable_witness :
    (chatCompletion (fun _ => Except.ok "ignored")
      { model := "default",
        messages := [{ role := "user", content := "Count to 3" }],
        stream := true }).1
      = Except.ok
          (ChatCompletionResult.streamHandle
            (Except.error streamingUnimplementedMsg) []) :=
  chatCompletion_stream_handle_unconsumable (fun _ => Except.ok "ignored")
    { model := "default",
      messages := [{ role := "user", content := "Count to 3" }],
      stream := true } rfl

/-- Claim C9 (confirmed): for every request with stream set to true, the
chatCompletion promise resolves successfully (it does not reject) to a
handle exposing async iteration; the failure surfaces only when the
consumer requests the first element, and neither the method itself nor
iterating the handle ever invokes the streaming call of the connection
handle, so no transport request is issued on this path. -/
theorem chatCompletion_stream_no_transport_call
    (unary : String → Except String String) (req : ChatCompletionRequest)
    (h : req.stream = true) :
    chatCompletion unary req
      = (Except.ok
          (ChatCompletionResult.streamHandle
            (Except.error streamingUnimplementedMsg) []), []) := by
  simp [chatCompletion, h]

/-- Witness for C9 on a concrete streaming request. -/
theorem chatCompletion_stream_no_transport_call_witness :
    chatCompletion (fun _ => Except.error "transport down")
      { model := "m", messages := [], stream := true }
      = (Except.ok
          (ChatCompletionResult.streamHandle
            (Except.error streamingUnimplementedMsg) []), []) :=
  chatCompletion_stream_no_transport_call (fun _ => Except.error "transport down")
    { model := "m", messages := [], stream := true } rfl

/-- Claim C6 (confirmed): for every request with stream set to false,
chatCompletion serializes the request, issues exactly one unary call on
it, and settles to exactly one outcome: the parsed response when the
unary call succeeds and its bytes parse, a TransportError carrying the
rejection when the unary call fails, and MalformedResponse when the
bytes do not parse; the three outcomes are mutually exclusive
characterizations of the single settled value. -/
theorem chatCompletion_unary_outcome
    (unary : String → Except String String) (req : ChatCompletionRequest)
    (h : req.stream = false) :
    ((∃ j, (chatCompletion unary req).1
        = Except.ok (ChatCompletionResult.unaryResponse j))
      ∨ (∃ e, (chatCompletion unary req).1 = Except.error e))
    ∧ ((chatCompletion unary req).1 = Except.error ClientError.malformed
        ↔ ∃ s, unary (serializeRequest req) = Except.ok s ∧ parseJson s = none)
    ∧ (∀ e, (chatCompletion unary req).1
          = Except.error (ClientError.transport e)
        ↔ unary (serializeRequest req) = Except.error e)
    ∧ (∀ j, (chatCompletion unary req).1
          = Except.ok (ChatCompletionResult.unaryResponse j)
        ↔ ∃ s, unary (serializeRequest req) = Except.ok s ∧ parseJson s = some j)
    ∧ (chatCompletion unary req).2
        = [InnerCall.unaryCall (serializeRequest req)] := by
  cases hu : unary (serializeRequest req) with
  | error e =>
    simp [chatCompletion, h, hu]
  | ok s =>
    cases hp : parseJson s with
    | some j =>
      simp [chatCompletion, h, hu, hp]
    | none =>
      simp [chatCompletion, h, hu, hp]

/-- Witness for C6: a unary transport answering an empty JSON object
yields the parsed response as the single outcome. -/
theorem chatCompletion_unary_outcome_witness :
    (chatCompletion (fun _ => Except.ok "\x7b\x7d")
      { model := "m", messages := [], stream := false }).1
      = Except.ok (ChatCompletionResult.unaryResponse (Json.obj [])) :=
  ((chatCompletion_unary_outcome (fun _ => Except.ok "\x7b\x7d")
      { model := "m", messages := [], stream := false } rfl).2.2.2.1
    (Json.obj [])).mpr ⟨"\x7b\x7d", rfl, rfl⟩

/-- Claim C7 (corrected), counterexample: the response text consisting of
an empty JSON object deserializes successfully even though it lacks every
required field of the expected UnaryResponse shape, so deserialization
does not fail on a missing required field; only JSON syntax errors are
detected. -/
theorem deserialize_shape_unchecked_cex :
    deserialize "\x7b\x7d" = Except.ok (Json.obj [])
      ∧ isUnaryResponseShape (Json.obj []) = false :=
  ⟨rfl, rfl⟩

/-- Claim C7 (amended): serialization of a request record is a total
function by construction and never fails; deserialization fails with
MalformedResponse exactly when the bytes are not parseable JSON text, and
succeeds on any parseable JSON text whatever its shape — a missing
required field or a wrong-typed field is not detected. -/
theorem deserialize_fails_iff_unparseable (s : String) :
    (deserialize s = Except.error ClientError.malformed ↔ parseJson s = none)
    ∧ ∀ j, (deserialize s = Except.ok j ↔ parseJson s = some j) := by
  unfold deserialize
  cases hp : parseJson s with
  | some j => simp
  | none => simp

/-- Claim C8 (confirmed): encode and decode are direct pass-throughs to
the tokenizer calls of the connection handle, propagating any tokenizer
error as-is with no retry; consequently, whenever the underlying handle
satisfies the round-trip law on a supported alphabet, the client methods
satisfy the same law on that alphabet. -/
theorem encode_decode_passthrough_roundtrip (c : NativeClient)
    (supported : String → Prop)
    (hrt : ∀ s, supported s →
      ∃ ids, c.tokenizerEncode s = Except.ok ids
        ∧ c.tokenizerDecode ids = Except.ok s) :
    (∀ t, encode c t = c.tokenizerEncode t)
    ∧ (∀ ids, decode c ids = c.tokenizerDecode ids)
    ∧ ∀ s, supported s →
        ∃ ids, encode c s = Except.ok ids ∧ decode c ids = Except.ok s :=
  ⟨fun _ => rfl, fun _ => rfl, fun s hs => hrt s hs⟩

/-- Witness for C8 on a concrete handle whose tokenizer round-trips the
one-string alphabet containing "ab". -/
theorem encode_decode_passthrough_roundtrip_witness :
    ∃ ids,
      encode
        ⟨fun s => Except.ok [s.length],
         fun ids => Except.ok (if ids = [2] then "ab" else "")⟩ "ab"
        = Except.ok ids
      ∧ decode
          ⟨fun s => Except.ok [s.length],
           fun ids => Except.ok (if ids = [2] then "ab" else "")⟩ ids
          = Except.ok "ab" :=
  (encode_decode_passthrough_roundtrip
      ⟨fun s => Except.ok [s.length],
       fun ids => Except.ok (if ids = [2] then "ab" else "")⟩
      (fun s => s = "ab")
      (fun s hs => by subst hs; exact ⟨[2], rfl, rfl⟩)).2.2 "ab" rfl

end Sglang
